import Mathlib

/-!
Verification of the zinnia alert/notification/session pipeline.

A shallow embedding of the Rust sources: machine integers become `Int`/`Nat`,
UTC instants become `Int` seconds, fallible functions return `Except AppError`,
database queries become pure functions over explicit lists of records, and
external effects (cache writes, notification-history inserts) become values
describing the effect.  Each definition mirrors one function of the source and
is named after it.
-/

namespace Zinnia

/-- Device/user/rule identifiers (`uuid::Uuid` in the source). -/
abbrev Uuid := Nat

/-- The error taxonomy of `src/errors/app_error.rs` (the variants the verified
functions produce). -/
inductive AppError where
  | unauthorized (msg : String)
  | forbidden (msg : String)
  | validationError (msg : String)
  | notFound (msg : String)
  | internalError (msg : String)
  | rateLimited (msg : String)
  | configError (msg : String)
  | redisError
deriving DecidableEq

/-! ## Capability tokens: `src/models/device_token.rs` -/

/-- `TokenPermission` of `src/models/device_token.rs`. -/
inductive TokenPermission where
  | read
  | write
  | all
deriving DecidableEq

/-- `DeviceAccessToken` of `src/models/device_token.rs`.  Timestamps are `Int`
UTC seconds; `expiresAt = none` means the token never expires. -/
structure DeviceAccessToken where
  id : Uuid
  deviceId : Uuid
  createdBy : Uuid
  tokenHash : String
  /-- `token_prefix`: the short plaintext lookup key stored with the record. -/
  lookupKey : String
  name : String
  permission : TokenPermission
  expiresAt : Option Int
  lastUsedAt : Option Int := none
  useCount : Int := 0
  isRevoked : Bool
  revokedAt : Option Int := none
  allowedIps : Option (List String)
  rateLimitPerMinute : Option Int := none
deriving DecidableEq

/-- `DeviceAccessToken::is_valid` (device_token.rs lines 77-89): revoked
tokens are invalid; an expiry in the strict past is invalid; everything else
is valid.  `now` stands for `Utc::now()`. -/
def DeviceAccessToken.isValid (t : DeviceAccessToken) (now : Int) : Bool :=
  if t.isRevoked then
    false
  else
    match t.expiresAt with
    | some expiresAt => if expiresAt < now then false else true
    | none => true

/-- `DeviceAccessToken::is_ip_allowed` (device_token.rs lines 92-98). -/
def DeviceAccessToken.isIpAllowed (t : DeviceAccessToken) (ip : String) : Bool :=
  match t.allowedIps with
  | none => true
  | some ips => if ips.isEmpty then true else ips.any (fun allowed => allowed == ip)

/-- The validity predicate exactly as the spec words it (for the refinement
comparison of claim C2): not revoked, and either no expiry or the expiry is
strictly later than the current time. -/
def specIsValid (t : DeviceAccessToken) (now : Int) : Bool :=
  !t.isRevoked &&
    (match t.expiresAt with
     | none => true
     | some expiresAt => decide (now < expiresAt))

/-- A concrete record whose expiry equals the current instant: the code still
accepts it, the spec's strict inequality does not. -/
def c2BoundaryToken : DeviceAccessToken :=
  { id := 1, deviceId := 2, createdBy := 3, tokenHash := "h", lookupKey := "zn_dat_aaaa...",
    name := "t", permission := .write, expiresAt := some 100, isRevoked := false,
    allowedIps := none }

/-! ## Token format: `src/security/token.rs` -/

/-- `TokenType` of `src/security/token.rs`. -/
inductive TokenType where
  | deviceApiKeyLive
  | deviceApiKeyTest
  | deviceAccessToken
deriving DecidableEq

/-- `TokenType::prefix` (token.rs lines 22-28). -/
def TokenType.prefixText : TokenType → String
  | .deviceApiKeyLive => "zn_live_"
  | .deviceApiKeyTest => "zn_test_"
  | .deviceAccessToken => "zn_dat_"

/-- `TokenType::display_prefix_len` (token.rs lines 39-44): how many characters
of the random part the stored lookup key keeps. -/
def TokenType.displayLen : TokenType → Nat
  | .deviceApiKeyLive => 8
  | .deviceApiKeyTest => 8
  | .deviceAccessToken => 12

/-- `str::starts_with` on the ASCII token text, as a character-list test
(byte prefixes and character prefixes agree on ASCII). -/
def strStartsWith (s p : String) : Bool := p.data.isPrefixOf s.data

/-- `TokenType::from_token` (token.rs lines 47-57). -/
def TokenType.fromToken (token : String) : Option TokenType :=
  if strStartsWith token "zn_live_" then some .deviceApiKeyLive
  else if strStartsWith token "zn_test_" then some .deviceApiKeyTest
  else if strStartsWith token "zn_dat_" then some .deviceAccessToken
  else none

/-- `extract_search_prefix` (token.rs lines 141-155): the lookup key used for
the store query.  Tokens are ASCII, so Lean's character count agrees with
Rust's byte length. -/
def extractSearchKey (token : String) : Except AppError String :=
  match TokenType.fromToken token with
  | none => .error (.validationError "无效的令牌格式")
  | some tokenType =>
    let p := tokenType.prefixText
    let prefLen := p.length
    let displayLen := tokenType.displayLen
    if token.length < prefLen + displayLen then
      .error (.validationError "令牌过短")
    else
      let randomPart := (token.drop prefLen).take displayLen
      .ok (p ++ randomPart ++ "...")

/-- `DeviceAccessTokenRepository::find_valid_by_prefix`
(device_token_repo.rs lines 87-104): the first stored record whose lookup key
matches and which is neither revoked nor expired
(`expires_at IS NULL OR expires_at > NOW()`). -/
def findValidByLookupKey (records : List DeviceAccessToken) (now : Int) (key : String) :
    Option DeviceAccessToken :=
  records.find? (fun t =>
    t.lookupKey == key && !t.isRevoked &&
      (match t.expiresAt with
       | none => true
       | some e => decide (now < e)))

/-- `DeviceAccessTokenService::validate_token`
(device_token_service.rs lines 106-150).  The store is the explicit `records`
list; `verifyHash` models the argon2 comparison `verify_token` on the
well-formed hashes the service stores (fire-and-forget usage recording has no
effect on the result and is omitted). -/
def validateDeviceToken (records : List DeviceAccessToken)
    (verifyHash : String → String → Bool) (now : Int) (token : String)
    (clientIp : Option String) : Except AppError (DeviceAccessToken × Uuid) :=
  match TokenType.fromToken token with
  | none => .error (.unauthorized "无效的令牌格式")
  | some tokenType =>
    if tokenType ≠ TokenType.deviceAccessToken then
      .error (.unauthorized "令牌类型不正确")
    else
      match extractSearchKey token with
      | .error e => .error e
      | .ok searchKey =>
        match findValidByLookupKey records now searchKey with
        | none => .error (.unauthorized "令牌无效或已过期")
        | some dbToken =>
          if !verifyHash token dbToken.tokenHash then
            .error (.unauthorized "令牌验证失败")
          else
            match clientIp with
            | some ip =>
              if !dbToken.isIpAllowed ip then
                .error (.forbidden "IP 地址不在白名单中")
              else
                .ok (dbToken, dbToken.deviceId)
            | none => .ok (dbToken, dbToken.deviceId)

/-! ## Session tokens: `src/security/jwt.rs` and `src/services/auth_service.rs` -/

/-- `JwtTokenType` of jwt.rs. -/
inductive JwtTokenType where
  | access
  | refresh
deriving DecidableEq

/-- `Claims` of jwt.rs.  `exp`/`iat` are Unix seconds. -/
structure Claims where
  sub : String
  tokenType : JwtTokenType
  iss : String
  aud : String
  exp : Int
  iat : Int
  jti : String
  deviceId : Option Uuid := none
  role : Option String := none
deriving DecidableEq

/-- An encoded JWT: its claims together with the signature bytes.  Verifying a
signature recomputes the HMAC over the claims and compares, so a token is
accepted exactly when `sig` equals the manager's MAC of its claims. -/
structure SignedJwt where
  claims : Claims
  sig : Nat
deriving DecidableEq

/-- `JwtManager` of jwt.rs.  `mac` models HMAC-SHA256 keyed with the manager's
secret (encoding and decoding key are derived from the same secret). -/
structure JwtManager where
  mac : Claims → Nat
  issuer : String
  audience : String
  accessExpirySeconds : Int
  refreshExpiryDays : Int

/-- The default clock leeway of the `jsonwebtoken` crate's
`Validation::default()` (60 seconds), applied to the `exp` check. -/
def jwtLeeway : Int := 60

/-- `JwtManager::generate_token` (jwt.rs lines 91-118).  `now` stands for
`Utc::now()` and `jti` for the fresh `Uuid::new_v4()`. -/
def JwtManager.generateToken (m : JwtManager) (subject : String)
    (tokenType : JwtTokenType) (deviceId : Option Uuid) (role : Option String)
    (now : Int) (jti : String) : SignedJwt :=
  let expiry : Int :=
    match tokenType with
    | .access => now + m.accessExpirySeconds
    | .refresh => now + m.refreshExpiryDays * 86400
  let claims : Claims :=
    { sub := subject, tokenType := tokenType, iss := m.issuer, aud := m.audience,
      exp := expiry, iat := now, jti := jti, deviceId := deviceId, role := role }
  { claims := claims, sig := m.mac claims }

/-- `JwtManager::validate_token` (jwt.rs lines 121-133): `jsonwebtoken::decode`
with `Validation::default()` plus the manager's issuer and audience.  The
default validation verifies the signature, issuer, audience and — with the
60-second leeway — the `exp` claim; every failure is mapped to the same
`Unauthorized` message. -/
def JwtManager.validateToken (m : JwtManager) (t : SignedJwt) (now : Int) :
    Except AppError Claims :=
  if t.sig ≠ m.mac t.claims then .error (.unauthorized "无效的令牌")
  else if t.claims.iss ≠ m.issuer then .error (.unauthorized "无效的令牌")
  else if t.claims.aud ≠ m.audience then .error (.unauthorized "无效的令牌")
  else if t.claims.exp < now - jwtLeeway then .error (.unauthorized "无效的令牌")
  else .ok t.claims

/-- `JwtManager::validate_access_token` (jwt.rs lines 136-144). -/
def JwtManager.validateAccessToken (m : JwtManager) (t : SignedJwt) (now : Int) :
    Except AppError Claims :=
  match m.validateToken t now with
  | .error e => .error e
  | .ok claims =>
    if claims.tokenType ≠ JwtTokenType.access then
      .error (.unauthorized "令牌类型错误")
    else
      .ok claims

/-- `JwtManager::validate_refresh_token` (jwt.rs lines 147-155). -/
def JwtManager.validateRefreshToken (m : JwtManager) (t : SignedJwt) (now : Int) :
    Except AppError Claims :=
  match m.validateToken t now with
  | .error e => .error e
  | .ok claims =>
    if claims.tokenType ≠ JwtTokenType.refresh then
      .error (.unauthorized "令牌类型错误")
    else
      .ok claims

/-- The one write `CacheService::blacklist_token` performs
(cache_service.rs lines 111-114): the token id inserted with a TTL. -/
structure CacheWrite where
  jti : String
  ttlSeconds : Nat
deriving DecidableEq

/-- `AuthService::revoke_token` (auth_service.rs lines 86-111).  It first runs
`JwtManager::validate_token` — whose default validation *does* check `exp` —
then computes the remaining TTL (fixed 3600 s once `exp ≤ now`) and blacklists
the token id.  Returns the cache write, the call's only side effect. -/
def revokeToken (m : JwtManager) (t : SignedJwt) (now : Int) :
    Except AppError CacheWrite :=
  match m.validateToken t now with
  | .error e => .error e
  | .ok claims =>
    let remainingExpiry : Nat :=
      if claims.exp > now then (claims.exp - now).toNat else 3600
    .ok { jti := claims.jti, ttlSeconds := remainingExpiry }

/-- A manager with concrete parameters for evaluating `revokeToken`. -/
def c5Mgr : JwtManager :=
  { mac := fun _ => 0, issuer := "zinnia", audience := "zinnia-api",
    accessExpirySeconds := 900, refreshExpiryDays := 7 }

/-- A correctly signed access token whose `exp` (6400) lies a full hour before
the evaluation instant 10000. -/
def c5ExpiredToken : SignedJwt :=
  { claims := { sub := "u1", tokenType := .access, iss := "zinnia", aud := "zinnia-api",
                exp := 6400, iat := 5500, jti := "jOld" }, sig := 0 }

/-- A correctly signed token that is still 500 seconds from expiry at 10000. -/
def c5FreshToken : SignedJwt :=
  { claims := { sub := "u1", tokenType := .access, iss := "zinnia", aud := "zinnia-api",
                exp := 10500, iat := 9600, jti := "jFresh" }, sig := 0 }

/-- A correctly signed token expired 30 seconds before 10000 — inside the
60-second decode leeway, so it still reaches the fallback-TTL branch. -/
def c5JustExpiredToken : SignedJwt :=
  { claims := { sub := "u1", tokenType := .access, iss := "zinnia", aud := "zinnia-api",
                exp := 9970, iat := 9070, jti := "jEdge" }, sig := 0 }

/-! ## Alert evaluation: `src/models/alert.rs`, `src/repositories/alert_repo.rs`,
`src/services/alert_service.rs` -/

/-- `AlertLevel` of alert.rs. -/
inductive AlertLevel where
  | info
  | warning
  | critical
deriving DecidableEq

/-- `AlertStatus` of alert.rs. -/
inductive AlertStatus where
  | active
  | acknowledged
  | resolved
deriving DecidableEq

/-- `AlertType` of alert.rs. -/
inductive AlertType where
  | lowBattery
  | criticalBattery
  | highTemperature
  | deviceOffline
  | rapidDrain
deriving DecidableEq

/-- `AlertRule` of alert.rs.  The `f64` threshold payload is carried as `Int`;
no verified property inspects its arithmetic. -/
structure AlertRule where
  id : Uuid
  userId : Uuid
  name : String
  alertType : AlertType
  level : AlertLevel
  thresholdValue : Int
  cooldownMinutes : Int
  enabled : Bool
deriving DecidableEq

/-- `AlertEvent` of alert.rs; `triggeredAt` is UTC seconds. -/
structure AlertEvent where
  id : Uuid
  deviceId : Uuid
  ruleId : Uuid
  alertType : AlertType
  level : AlertLevel
  status : AlertStatus
  message : String
  value : Int
  threshold : Int
  triggeredAt : Int
  acknowledgedAt : Option Int := none
  resolvedAt : Option Int := none
deriving DecidableEq

/-- `AlertRepository::get_rule_by_type` (alert_repo.rs lines 65-75):
`WHERE user_id = $1 AND alert_type = $2 AND enabled = true`, one row. -/
def getRuleByType (rules : List AlertRule) (userId : Uuid) (alertType : AlertType) :
    Option AlertRule :=
  rules.find? (fun r => r.userId == userId && r.alertType == alertType && r.enabled)

/-- `AlertRepository::is_in_cooldown` (alert_repo.rs lines 177-198): counts
events of the same device and alert type with
`triggered_at > NOW() - INTERVAL '1 minute' * cooldown_minutes`. -/
def isInCooldown (events : List AlertEvent) (deviceId : Uuid) (alertType : AlertType)
    (cooldownMinutes : Int) (now : Int) : Bool :=
  events.countP (fun e =>
    e.deviceId == deviceId && e.alertType == alertType &&
      decide (now - 60 * cooldownMinutes < e.triggeredAt)) > 0

/-- `AlertRepository::create_event` (alert_repo.rs lines 144-174): inserts an
`active` event carrying the rule's type and level, the observed value and the
device threshold, timestamped `NOW()`. -/
def createEvent (events : List AlertEvent) (deviceId : Uuid) (rule : AlertRule)
    (value threshold : Int) (message : String) (now : Int) (newId : Uuid) :
    AlertEvent × List AlertEvent :=
  let e : AlertEvent :=
    { id := newId, deviceId := deviceId, ruleId := rule.id, alertType := rule.alertType,
      level := rule.level, status := .active, message := message, value := value,
      threshold := threshold, triggeredAt := now }
  (e, events ++ [e])

/-- The outcome of one `trigger_alert` call: the event created (if any), the
event store afterwards, and whether a notification send was attempted. -/
structure TriggerResult where
  created : Option AlertEvent
  events : List AlertEvent
  notified : Bool
deriving DecidableEq

/-- `AlertService::trigger_alert` (alert_service.rs lines 130-197) under
sequential execution: look up the enabled rule for the owner and type (no-op
without one), suppress inside the cooldown window, otherwise create the event
and hand it to the notification service when one is injected
(`hasNotifier`). -/
def triggerAlert (rules : List AlertRule) (events : List AlertEvent) (hasNotifier : Bool)
    (deviceId userId : Uuid) (alertType : AlertType) (value threshold : Int)
    (message : String) (now : Int) (newId : Uuid) : TriggerResult :=
  match getRuleByType rules userId alertType with
  | none => { created := none, events := events, notified := false }
  | some rule =>
    if isInCooldown events deviceId alertType rule.cooldownMinutes now then
      { created := none, events := events, notified := false }
    else
      let (e, events') := createEvent events deviceId rule value threshold message now newId
      { created := some e, events := events', notified := hasNotifier }

/-! ## Notification dispatch: `src/models/notification.rs`,
`src/services/notification_service.rs` -/

/-- `NotificationChannel` of notification.rs. -/
inductive NotificationChannel where
  | email
  | webhook
  | push
deriving DecidableEq

/-- Decoded `EmailNotificationConfig`. -/
structure EmailNotificationConfig where
  enabled : Bool
  email : String
deriving DecidableEq

/-- Decoded `WebhookNotificationConfig`. -/
structure WebhookNotificationConfig where
  enabled : Bool
  url : String
deriving DecidableEq

/-- Decoded `WebPushNotificationConfig`. -/
structure WebPushNotificationConfig where
  enabled : Bool
deriving DecidableEq

/-- `UserNotificationPreference` of notification.rs.  The per-channel JSON
blobs are carried already decoded (`none` = no blob stored); quiet-hours
start/end are minutes after local midnight, mirroring `NaiveTime`. -/
structure UserNotificationPreference where
  userId : Uuid
  enabled : Bool
  emailConfig : Option EmailNotificationConfig
  webhookConfig : Option WebhookNotificationConfig
  webPushConfig : Option WebPushNotificationConfig
  notifyInfo : Bool
  notifyWarning : Bool
  notifyCritical : Bool
  quietHoursStart : Option Nat
  quietHoursEnd : Option Nat
  quietHoursTimezone : String
  minNotificationInterval : Int
deriving DecidableEq

/-- `NotificationService::should_notify_for_level`
(notification_service.rs lines 500-506). -/
def shouldNotifyForLevel (pref : UserNotificationPreference) (level : AlertLevel) : Bool :=
  match level with
  | .info => pref.notifyInfo
  | .warning => pref.notifyWarning
  | .critical => pref.notifyCritical

/-- `NotificationService::is_in_quiet_hours`
(notification_service.rs lines 509-528).  `localTime` is the current
time-of-day in the user's configured timezone (the chrono-tz conversion is
environmental); a start at or after the end wraps past midnight. -/
def isInQuietHours (pref : UserNotificationPreference) (localTime : Nat) : Bool :=
  match pref.quietHoursStart, pref.quietHoursEnd with
  | some s, some e =>
    if s < e then decide (s ≤ localTime ∧ localTime < e)
    else decide (s ≤ localTime ∨ localTime < e)
  | _, _ => false

/-- One operation against the notification-history table: an insert
(`create_notification_history`) or a status transition
(`update_notification_status`) of the row just created for the channel. -/
inductive HistoryOp where
  | create (alertId : Uuid) (userId : Uuid) (channel : NotificationChannel)
      (recipient : String) (status : String) (reason : Option String)
  | setStatus (channel : NotificationChannel) (status : String)
      (errorDetail : Option String)
deriving DecidableEq

/-- The environment one dispatch call observes: the clock, the per-channel
most-recent-notification times read from the store, and the outcomes of the
abstract senders. -/
structure NotifyEnv where
  now : Int
  localTime : Nat
  lastEmailTime : Option Int
  lastWebhookTime : Option Int
  lastPushTime : Option Int
  emailSendOk : Bool
  webPushConfigured : Bool
  pushSendOk : Bool
  pushActiveCount : Nat
  deviceFound : Bool
deriving DecidableEq

/-- `elapsed.num_minutes() < min_notification_interval`: chrono's
`num_minutes` truncates seconds toward zero, as `Int.div` does. -/
def freqLimited (now : Int) (lastTime : Option Int) (minInterval : Int) : Bool :=
  match lastTime with
  | some last => decide (Int.tdiv (now - last) 60 < minInterval)
  | none => false

/-- `NotificationService::send_email_notification`
(notification_service.rs lines 208-296) as its history writes. -/
def sendEmailNotification (pref : UserNotificationPreference) (env : NotifyEnv)
    (event : AlertEvent) : List HistoryOp :=
  match pref.emailConfig with
  | none => []
  | some cfg =>
    if !cfg.enabled then []
    else if freqLimited env.now env.lastEmailTime pref.minNotificationInterval then
      [.create event.id pref.userId .email cfg.email "skipped" (some "频率限制")]
    else
      [.create event.id pref.userId .email cfg.email "pending" none,
       if env.emailSendOk then .setStatus .email "sent" none
       else .setStatus .email "failed" (some "邮件发送失败")]

/-- `NotificationService::send_webhook_notification`
(notification_service.rs lines 299-365): the HTTP send is unimplemented, the
history row is written as `sent` directly. -/
def sendWebhookNotification (pref : UserNotificationPreference) (env : NotifyEnv)
    (event : AlertEvent) : List HistoryOp :=
  match pref.webhookConfig with
  | none => []
  | some cfg =>
    if !cfg.enabled then []
    else if freqLimited env.now env.lastWebhookTime pref.minNotificationInterval then
      [.create event.id pref.userId .webhook cfg.url "skipped" (some "频率限制")]
    else
      [.create event.id pref.userId .webhook cfg.url "sent" none]

/-- `NotificationService::send_web_push_notification`
(notification_service.rs lines 368-467) as its history writes. -/
def sendWebPushNotification (pref : UserNotificationPreference) (env : NotifyEnv)
    (event : AlertEvent) : List HistoryOp :=
  if !env.webPushConfigured then []
  else
    match pref.webPushConfig with
    | none => []
    | some cfg =>
      if !cfg.enabled then []
      else if freqLimited env.now env.lastPushTime pref.minNotificationInterval then
        [.create event.id pref.userId .push "web_push" "skipped" (some "频率限制")]
      else
        [.create event.id pref.userId .push "web_push" "pending" none,
         if env.pushSendOk then
           (if env.pushActiveCount > 0 then .setStatus .push "sent" none
            else .setStatus .push "skipped" (some "无活跃订阅"))
         else .setStatus .push "failed" (some "发送失败")]

/-- `NotificationService::send_alert_notification`
(notification_service.rs lines 115-205) as the sequence of history writes it
performs.  A missing preference row, a globally disabled user, a filtered
level, quiet hours, or a missing device all stop the call before any write;
otherwise the three channels run in order, each channel's failure only
logged. -/
def sendAlertNotification (prefOpt : Option UserNotificationPreference)
    (env : NotifyEnv) (event : AlertEvent) : List HistoryOp :=
  match prefOpt with
  | none => []
  | some pref =>
    if !pref.enabled then []
    else if !shouldNotifyForLevel pref event.level then []
    else if isInQuietHours pref env.localTime then []
    else if !env.deviceFound then []
    else
      sendEmailNotification pref env event ++
      sendWebhookNotification pref env event ++
      sendWebPushNotification pref env event

/-! ## Rate limiting: `src/middleware/rate_limit.rs` -/

/-- `RateLimitInfo` of rate_limit.rs. -/
structure RateLimitInfo where
  isLimited : Bool
  remaining : Nat
  resetAt : Nat
  retryAfter : Nat
deriving DecidableEq

/-- `check_rate_limit` (rate_limit.rs lines 195-251).  `getCount` is the
outcome of the Redis `GET` on the counter key (`none` = key absent), and
`incrOk`/`expireOk` whether `INCR`/`EXPIRE` succeed (a Redis failure becomes
`AppError::RedisError`). -/
def checkRateLimit (getCount : Except AppError (Option Nat)) (incrOk expireOk : Bool)
    (limit : Nat) (windowSeconds now : Nat) : Except AppError RateLimitInfo :=
  let resetAt := now + windowSeconds
  match getCount with
  | .error e => .error e
  | .ok count =>
    let currentCount := count.getD 0
    if currentCount ≥ limit then
      .ok { isLimited := true, remaining := 0, resetAt := resetAt,
            retryAfter := windowSeconds }
    else if !incrOk then .error .redisError
    else if !expireOk then .error .redisError
    else
      .ok { isLimited := false, remaining := limit - currentCount - 1,
            resetAt := resetAt, retryAfter := 0 }

/-- What the middleware does with one request: forward it to the inner service
(with the rate headers when the check succeeded) or reject it with
`AppError::RateLimited`. -/
inductive RequestOutcome where
  | forwarded (rateHeaders : Option (Nat × Nat × Nat))
  | rejected (retryAfter : Nat)
deriving DecidableEq

/-- `RateLimiterMiddleware::call` (rate_limit.rs lines 110-178) after the
check's result is in: a limited `Ok` rejects, an unlimited `Ok` forwards with
`x-ratelimit-*` headers, and any `Err` forwards fail-open (the failure is
logged). -/
def rateLimiterCall (checkResult : Except AppError RateLimitInfo) (limit : Nat) :
    RequestOutcome :=
  match checkResult with
  | .ok info =>
    if info.isLimited then .rejected info.retryAfter
    else .forwarded (some (limit, info.remaining, info.resetAt))
  | .error _ => .forwarded none

/-! ## WebSocket session actor: `src/websocket/session.rs` -/

/-- `ConnectionState` of session.rs. -/
inductive ConnectionState where
  | waitingAuth
  | authenticated
  | closed
deriving DecidableEq

/-- `MAX_SUBSCRIBED_DEVICES` (session.rs line 27). -/
def maxSubscribedDevices : Nat := 100

/-- The actor-owned state of `WsSession`: connection state, the bound device
or user id, and the subscription set (a `HashSet<Uuid>`). -/
structure WsSession where
  state : ConnectionState
  deviceId : Option Uuid
  userId : Option Uuid
  subscribedDevices : Finset Uuid
deriving DecidableEq

/-- `WsSession::new` (session.rs lines 74-95). -/
def WsSession.init : WsSession :=
  { state := .waitingAuth, deviceId := none, userId := none, subscribedDevices := ∅ }

/-- The internal `AuthResult` of session.rs (lines 466-470): what the spawned
validation future resolves to. -/
inductive AuthOutcome where
  | deviceAuth (deviceId : Uuid)
  | userAuth (userId : Uuid) (role : Option String)
  | failed (error : String)
deriving DecidableEq

/-- The server messages the verified handlers emit (websocket/messages.rs). -/
inductive ServerMsg where
  | authSuccess (deviceId : Option Uuid) (userId : Option Uuid)
  | authFailed (msg : String)
  | subscribeResult (success : Bool) (subscribedDevices : List Uuid)
      (error : Option String)
  | errorMsg (code : String) (msg : String)
  | pong
deriving DecidableEq

/-- The auth-completion callback of `WsSession::handle_auth`
(session.rs lines 185-201): applied on the actor regardless of its current
state — there is no `WaitingAuth` check. -/
def WsSession.applyAuthResult (s : WsSession) (r : AuthOutcome) : WsSession × ServerMsg :=
  match r with
  | .deviceAuth d =>
    ({ s with deviceId := some d, state := .authenticated }, .authSuccess (some d) none)
  | .userAuth u _ =>
    ({ s with userId := some u, state := .authenticated }, .authSuccess none (some u))
  | .failed err => (s, .authFailed err)

/-- The subscribe-completion callback of `WsSession::handle_subscribe`
(session.rs lines 383-409): the cap compares the current count plus the
*number* of accessible requested ids (duplicates included) against
`MAX_SUBSCRIBED_DEVICES`, then inserts. -/
def WsSession.applySubscribeResult (s : WsSession) (accessible : List Uuid) :
    WsSession × ServerMsg :=
  let newSubscriptions := accessible.length
  let currentSubscriptions := s.subscribedDevices.card
  if currentSubscriptions + newSubscriptions > maxSubscribedDevices then
    (s, .subscribeResult false [] (some "订阅设备数量超过限制 (最大 100)"))
  else
    ({ s with subscribedDevices :=
        accessible.foldl (fun acc d => insert d acc) s.subscribedDevices },
     .subscribeResult true accessible none)

/-- The access filter of `WsSession::handle_subscribe`
(session.rs lines 373-381): ids the user can access, in request order;
`user_can_access(..).unwrap_or(false)` folds repository errors into `false`,
so `canAccess` is the observed boolean outcome. -/
def accessibleDevices (canAccess : Uuid → Bool) (deviceIds : List Uuid) : List Uuid :=
  deviceIds.filter canAccess

/-- `WsSession::handle_subscribe` (session.rs lines 349-410) with its spawned
future sequenced (the actor serializes the completion): authentication and
user checks, then the filtered accessible list is applied. -/
def WsSession.handleSubscribe (s : WsSession) (canAccess : Uuid → Bool)
    (deviceIds : List Uuid) : WsSession × ServerMsg :=
  if s.state ≠ ConnectionState.authenticated then
    (s, .errorMsg "UNAUTHORIZED" "请先完成认证")
  else
    match s.userId with
    | none => (s, .subscribeResult false [] (some "只有用户可以订阅设备数据"))
    | some _ => s.applySubscribeResult (accessibleDevices canAccess deviceIds)

/-- `WsSession::handle_unsubscribe` (session.rs lines 413-429): an empty id
list clears the whole subscription set; a non-empty list removes each id; the
reply lists what remains.  The handler performs no state or authentication
check. -/
def WsSession.handleUnsubscribe (s : WsSession) (deviceIds : List Uuid) :
    WsSession × ServerMsg :=
  let s' :=
    if deviceIds.isEmpty then { s with subscribedDevices := ∅ }
    else { s with subscribedDevices :=
            deviceIds.foldl (fun acc d => acc.erase d) s.subscribedDevices }
  (s', .subscribeResult true (s'.subscribedDevices.sort (· ≤ ·)) none)

/-- The events that mutate a session actor's state: completion callbacks of
the spawned auth and subscribe futures (re-serialized onto the actor), the
synchronously handled unsubscribe and ping messages, and closing. -/
inductive WsEvent where
  | authCompleted (r : AuthOutcome)
  | subscribeCompleted (accessible : List Uuid)
  | unsubscribeMsg (deviceIds : List Uuid)
  | pingMsg
  | closeMsg
deriving DecidableEq

/-- One actor step: how each event of session.rs mutates the session. -/
def WsSession.step (s : WsSession) (e : WsEvent) : WsSession :=
  match e with
  | .authCompleted r => (s.applyAuthResult r).1
  | .subscribeCompleted accessible => (s.applySubscribeResult accessible).1
  | .unsubscribeMsg ids => (s.handleUnsubscribe ids).1
  | .pingMsg => s
  | .closeMsg => { s with state := .closed }

/-- A run of the actor over a serialized event sequence. -/
def WsSession.run (s : WsSession) (es : List WsEvent) : WsSession :=
  es.foldl WsSession.step s

/-- Whether an event is the completion of a successful authentication. -/
def isAuthSuccess : WsEvent → Bool
  | .authCompleted (.deviceAuth _) => true
  | .authCompleted (.userAuth _ _) => true
  | _ => false

/-- How many successful authentication completions an event sequence holds. -/
def authSuccessCount (es : List WsEvent) : Nat :=
  es.countP isAuthSuccess

/-- A user connection already holding 51 subscriptions (for claim C7). -/
def c7Session : WsSession :=
  { state := .authenticated, deviceId := none, userId := some 7,
    subscribedDevices := (List.range 51).toFinset }

/-- A freshly authenticated user connection with no subscriptions. -/
def c7WitSession : WsSession :=
  { state := .authenticated, deviceId := none, userId := some 7,
    subscribedDevices := ∅ }

/-- Preference with quiet hours 22:00-08:00 (in minutes after midnight) for
the C8 scenario. -/
def c8Pref : UserNotificationPreference :=
  { userId := 4, enabled := true,
    emailConfig := some { enabled := true, email := "a@example.com" },
    webhookConfig := none, webPushConfig := none,
    notifyInfo := true, notifyWarning := true, notifyCritical := true,
    quietHoursStart := some (22 * 60), quietHoursEnd := some (8 * 60),
    quietHoursTimezone := "Asia/Shanghai", minNotificationInterval := 5 }

/-- An environment whose local time is 23:00 (inside the wrapped window). -/
def c8Env : NotifyEnv :=
  { now := 1000000, localTime := 23 * 60, lastEmailTime := none,
    lastWebhookTime := none, lastPushTime := none, emailSendOk := true,
    webPushConfigured := false, pushSendOk := true, pushActiveCount := 0,
    deviceFound := true }

/-- A critical alert event for the C8 scenario. -/
def c8Event : AlertEvent :=
  { id := 11, deviceId := 12, ruleId := 13, alertType := .criticalBattery,
    level := .critical, status := .active, message := "设备电量临界: 5%",
    value := 5, threshold := 10, triggeredAt := 1000000 }

end Zinnia

namespace Zinnia

/-- C2 counterexample: at `now = 100` and `expires_at = 100` the code's
`is_valid` returns `true`, while the spec's "expiry strictly later than now"
demands `false`; so the claimed equivalence fails at this input. -/
theorem C2_strict_expiry_counterexample :
    c2BoundaryToken.isValid 100 = true ∧ specIsValid c2BoundaryToken 100 = false := by
  constructor <;> rfl

/-- C2 (amended): `is_valid` returns true iff the token is not revoked and
either it has no expiry or its expiry is not earlier than (i.e. ≥) the current
time; in particular it is false for every revoked record and for every record
whose expiry lies strictly in the past. -/
theorem C2_isValid_iff (t : DeviceAccessToken) (now : Int) :
    (t.isValid now = true ↔
      t.isRevoked = false ∧ (t.expiresAt = none ∨ ∃ e, t.expiresAt = some e ∧ now ≤ e)) ∧
    (t.isRevoked = true → t.isValid now = false) ∧
    (∀ e, t.expiresAt = some e → e < now → t.isValid now = false) := by
  obtain ⟨i, di, cb, th, lk, nm, pm, exp, lu, uc, rev, ra, ips, rl⟩ := t
  cases rev <;> cases exp <;>
    simp [DeviceAccessToken.isValid] <;>
    first
      | omega
      | (split <;> simp_all <;> omega)

/-- Folding `HashSet::insert` over a list is union with the list's element
set. -/
theorem foldl_insert_eq_union (l : List Uuid) (s : Finset Uuid) :
    l.foldl (fun acc d => insert d acc) s = s ∪ l.toFinset := by
  induction l generalizing s with
  | nil => simp
  | cons a l ih =>
    simp only [List.foldl_cons, ih, List.toFinset_cons]
    rw [Finset.insert_union, Finset.union_insert]

/-- C10: an unsubscribe message whose device-id list is empty clears the whole
subscription set and replies with a success result listing the now-empty set;
the handler is given an arbitrary session — including unauthenticated and
closed ones — because `handle_unsubscribe` performs no authentication-state
check. -/
theorem C10_unsubscribe_empty_clears_all (s : WsSession) :
    s.handleUnsubscribe [] =
      ({ s with subscribedDevices := ∅ }, .subscribeResult true [] none) := by
  unfold WsSession.handleUnsubscribe
  simp

/-- C9: the rate-limit middleware is fail-open — whenever the sliding-window
check errors (cache unreachable at the read, the increment or the expiry), the
request is forwarded to the inner service; and a rejection happens exactly
when the counter read succeeded and the window count has reached the
configured limit. -/
theorem C9_rate_limit_fail_open (getCount : Except AppError (Option Nat))
    (incrOk expireOk : Bool) (limit windowSeconds now : Nat) :
    (∀ e, checkRateLimit getCount incrOk expireOk limit windowSeconds now = .error e →
      rateLimiterCall (checkRateLimit getCount incrOk expireOk limit windowSeconds now)
        limit = .forwarded none) ∧
    ((∃ r, rateLimiterCall (checkRateLimit getCount incrOk expireOk limit windowSeconds now)
        limit = .rejected r) ↔
      ∃ c, getCount = .ok c ∧ limit ≤ c.getD 0) := by
  unfold checkRateLimit rateLimiterCall
  cases getCount with
  | error e => simp
  | ok c =>
    by_cases hlim : c.getD 0 ≥ limit
    · simp [hlim]
    · cases incrOk <;> cases expireOk <;> simp [hlim] <;> omega

/-- C5: `revoke_token` first runs the decoder's default validation, which
rejects `exp` older than the 60-second leeway — so a token expired a full hour
ago is refused with `Unauthorized` and no revocation-cache write happens,
while the code's own comments promise to blacklist it with the fixed
3600-second fallback TTL.  The unexpired and just-inside-leeway cases behave
as the spec describes. -/
theorem C5_revoke_expired_token_rejected :
    revokeToken c5Mgr c5ExpiredToken 10000 = .error (.unauthorized "无效的令牌") ∧
    c5ExpiredToken.claims.exp < 10000 - jwtLeeway ∧
    revokeToken c5Mgr c5FreshToken 10000 = .ok { jti := "jFresh", ttlSeconds := 500 } ∧
    revokeToken c5Mgr c5JustExpiredToken 10000 =
      .ok { jti := "jEdge", ttlSeconds := 3600 } := by
  refine ⟨rfl, by decide, rfl, rfl⟩

/-- C8: the notification dispatcher writes no history row on any channel when
the user has notifications globally disabled, when the event's level is opted
out by the per-level flags, or when the local time lies inside the quiet-hours
window; and for a window whose start is not before its end the code's
membership test is exactly the wrap-past-midnight reading `now ≥ start ∨ now <
end`. -/
theorem C8_notification_suppressed (pref : UserNotificationPreference)
    (env : NotifyEnv) (event : AlertEvent)
    (h : pref.enabled = false ∨ shouldNotifyForLevel pref event.level = false ∨
         isInQuietHours pref env.localTime = true) :
    sendAlertNotification (some pref) env event = [] ∧
    (∀ st en, pref.quietHoursStart = some st → pref.quietHoursEnd = some en →
      en ≤ st →
      (isInQuietHours pref env.localTime = true ↔
        st ≤ env.localTime ∨ env.localTime < en)) := by
  constructor
  · rcases h with h | h | h
    · simp [sendAlertNotification, h]
    · unfold sendAlertNotification
      cases he : pref.enabled <;> simp [h]
    · unfold sendAlertNotification
      cases he : pref.enabled <;>
        cases hl : shouldNotifyForLevel pref event.level <;> simp [h]
  · intro st en hs hen hle
    unfold isInQuietHours
    rw [hs, hen]
    have hnlt : ¬ st < en := by omega
    simp [hnlt]

/-- C8 witness: quiet hours 22:00-08:00, local time 23:00, critical event with
every flag enabled — zero history writes, so in particular zero `sent` or
`pending` rows. -/
theorem C8_notification_suppressed_witness :
    sendAlertNotification (some c8Pref) c8Env c8Event = [] :=
  (C8_notification_suppressed c8Pref c8Env c8Event
    (Or.inr (Or.inr (by decide)))).1

/-- C1: under sequential execution, with an enabled rule of cooldown `C`
matched for the owner and alert type: a triggering report while some event of
the same (device, alert type) was triggered within the last `C` minutes
creates no event and attempts no notification; a report for which every such
previous event lies strictly more than `C` minutes in the past creates a
fresh `active` event (notified when a dispatcher is injected). -/
theorem C1_cooldown_admission (rules : List AlertRule) (events : List AlertEvent)
    (hasNotifier : Bool) (deviceId userId : Uuid) (alertType : AlertType)
    (value threshold : Int) (message : String) (now : Int) (newId : Uuid)
    (rule : AlertRule) (hrule : getRuleByType rules userId alertType = some rule) :
    ((∃ e ∈ events, e.deviceId = deviceId ∧ e.alertType = alertType ∧
        now - e.triggeredAt < 60 * rule.cooldownMinutes) →
      triggerAlert rules events hasNotifier deviceId userId alertType value
          threshold message now newId =
        { created := none, events := events, notified := false }) ∧
    ((∀ e ∈ events, e.deviceId = deviceId → e.alertType = alertType →
        60 * rule.cooldownMinutes < now - e.triggeredAt) →
      ∃ ev, triggerAlert rules events hasNotifier deviceId userId alertType value
          threshold message now newId =
          { created := some ev, events := events ++ [ev], notified := hasNotifier } ∧
        ev.deviceId = deviceId ∧ ev.alertType = alertType ∧
        ev.status = .active ∧ ev.triggeredAt = now) := by
  have htype : rule.alertType = alertType := by
    have := List.find?_some hrule
    simp only [Bool.and_eq_true, beq_iff_eq] at this
    exact this.1.2
  constructor
  · rintro ⟨e, hmem, hdev, hty, hlt⟩
    have hpos : (0 : Nat) < events.countP (fun e =>
        e.deviceId == deviceId && e.alertType == alertType &&
          decide (now - 60 * rule.cooldownMinutes < e.triggeredAt)) := by
      rw [List.countP_pos_iff]
      refine ⟨e, hmem, ?_⟩
      simp only [Bool.and_eq_true, beq_iff_eq, decide_eq_true_eq]
      exact ⟨⟨hdev, hty⟩, by omega⟩
    have hcool : isInCooldown events deviceId alertType rule.cooldownMinutes now = true := by
      unfold isInCooldown
      simpa using hpos
    simp only [triggerAlert, hrule, hcool]
    simp
  · intro hfar
    have hzero : events.countP (fun e =>
        e.deviceId == deviceId && e.alertType == alertType &&
          decide (now - 60 * rule.cooldownMinutes < e.triggeredAt)) = 0 := by
      rw [List.countP_eq_zero]
      intro e hmem
      simp only [Bool.and_eq_true, beq_iff_eq, decide_eq_true_eq, not_and]
      rintro ⟨hdev, hty⟩
      have := hfar e hmem hdev hty
      omega
    have hcool : isInCooldown events deviceId alertType rule.cooldownMinutes now = false := by
      unfold isInCooldown
      simp [hzero]
    simp only [triggerAlert, hrule, hcool]
    unfold createEvent
    refine ⟨{ id := newId, deviceId := deviceId, ruleId := rule.id,
              alertType := rule.alertType, level := rule.level, status := .active,
              message := message, value := value, threshold := threshold,
              triggeredAt := now }, by simp, rfl, htype, rfl, rfl⟩

/-- The rule and prior event used to exercise `C1_cooldown_admission`. -/
def c1Rule : AlertRule :=
  { id := 30, userId := 1, name := "low", alertType := .lowBattery, level := .warning,
    thresholdValue := 20, cooldownMinutes := 5, enabled := true }

/-- An admitted low-battery event for device 2 at time 0. -/
def c1Event0 : AlertEvent :=
  { id := 31, deviceId := 2, ruleId := 30, alertType := .lowBattery, level := .warning,
    status := .active, message := "设备电量低: 7%", value := 7, threshold := 20,
    triggeredAt := 0 }

/-- C1 witness: cooldown 5 minutes, one event at t = 0; a report at t = 60 s
(within the window) is suppressed with no notification attempt. -/
theorem C1_cooldown_admission_witness :
    triggerAlert [c1Rule] [c1Event0] true 2 1 .lowBattery 7 20 "low" 60 99 =
      { created := none, events := [c1Event0], notified := false } :=
  (C1_cooldown_admission [c1Rule] [c1Event0] true 2 1 .lowBattery 7 20 "low" 60 99
      c1Rule (by decide)).1
    ⟨c1Event0, by decide, rfl, rfl, by decide⟩

/-- C4: a freshly generated, unexpired access token passes
`validate_access_token` and yields its original subject, device binding and
role; a refresh-kind token where an access-kind is required — and vice versa —
fails with `Unauthorized`, as does any token whose signature is not the MAC of
its claims. -/
theorem C4_session_token_validation (m : JwtManager) (subject : String)
    (deviceId : Option Uuid) (role : Option String) (t0 now : Int) (jti : String)
    (hAcc : now < t0 + m.accessExpirySeconds) :
    (m.validateAccessToken (m.generateToken subject .access deviceId role t0 jti) now =
        .ok (m.generateToken subject .access deviceId role t0 jti).claims ∧
      (m.generateToken subject .access deviceId role t0 jti).claims.sub = subject ∧
      (m.generateToken subject .access deviceId role t0 jti).claims.deviceId = deviceId ∧
      (m.generateToken subject .access deviceId role t0 jti).claims.role = role) ∧
    (∀ rjti, ∃ msg,
      m.validateAccessToken (m.generateToken subject .refresh deviceId none t0 rjti)
          now = .error (.unauthorized msg)) ∧
    (m.validateRefreshToken (m.generateToken subject .access deviceId role t0 jti) now =
      .error (.unauthorized "令牌类型错误")) ∧
    (∀ sig, sig ≠ m.mac (m.generateToken subject .access deviceId role t0 jti).claims →
      m.validateAccessToken
          { claims := (m.generateToken subject .access deviceId role t0 jti).claims,
            sig := sig } now =
        .error (.unauthorized "无效的令牌")) := by
  have hexp : ¬ (t0 + m.accessExpirySeconds < now - jwtLeeway) := by
    unfold jwtLeeway; omega
  refine ⟨⟨?_, rfl, rfl, rfl⟩, ?_, ?_, ?_⟩
  · unfold JwtManager.validateAccessToken JwtManager.validateToken JwtManager.generateToken
    simp [hexp]
  · intro rjti
    unfold JwtManager.validateAccessToken JwtManager.validateToken JwtManager.generateToken
    by_cases hrexp : t0 + m.refreshExpiryDays * 86400 < now - jwtLeeway
    · exact ⟨"无效的令牌", by simp [hrexp]⟩
    · exact ⟨"令牌类型错误", by simp [hrexp]⟩
  · unfold JwtManager.validateRefreshToken JwtManager.validateToken JwtManager.generateToken
    simp [hexp]
  · intro sig hsig
    unfold JwtManager.validateAccessToken JwtManager.validateToken
    simp only [JwtManager.generateToken] at hsig ⊢
    simp [hsig]

/-- A concrete manager for exercising `C4_session_token_validation`. -/
def c4Mgr : JwtManager :=
  { mac := fun c => c.iat.natAbs + c.jti.length, issuer := "zinnia",
    audience := "zinnia-api", accessExpirySeconds := 3600, refreshExpiryDays := 7 }

/-- C4 witness: a token issued at t = 0 validates at t = 10 and returns its
original claims. -/
theorem C4_session_token_validation_witness :
    c4Mgr.validateAccessToken
        (c4Mgr.generateToken "u1" .access (some 5) (some "admin") 0 "j") 10 =
      .ok (c4Mgr.generateToken "u1" .access (some 5) (some "admin") 0 "j").claims :=
  (C4_session_token_validation c4Mgr "u1" (some 5) (some "admin") 0 10 "j"
    (by decide)).1.1

/-- C3 counterexample: the token `"zn_dat_x"` carries the recognized
device-access prefix but is shorter than the lookup-key length, so
`extract_search_prefix` rejects it — and `validate_token` surfaces that as a
`ValidationError`, an error class the claim says these checks never
produce. -/
theorem C3_short_token_counterexample :
    validateDeviceToken [] (fun _ _ => false) 0 "zn_dat_x" none =
      .error (.validationError "令牌过短") ∧
    (∀ m, AppError.validationError "令牌过短" ≠ AppError.unauthorized m) ∧
    (∀ m, AppError.validationError "令牌过短" ≠ AppError.forbidden m) := by
  refine ⟨rfl, ?_, ?_⟩ <;> intro m h <;> cases h

/-- C3 (amended): `validate_token` rejects with `Unauthorized` when the
prefix is unrecognized or of the wrong type, when no valid stored record
matches the lookup key (not found, revoked or expired), and when the hash
comparison fails; with `Forbidden` when an IP allow-list exists and the
client IP is absent from it; and — the one further class these checks
produce — with `ValidationError` when a recognized device-access token is
shorter than the lookup-key length. -/
theorem C3_validate_error_classes (records : List DeviceAccessToken)
    (verifyHash : String → String → Bool) (now : Int) (token : String)
    (clientIp : Option String) :
    (TokenType.fromToken token = none →
      validateDeviceToken records verifyHash now token clientIp =
        .error (.unauthorized "无效的令牌格式")) ∧
    (∀ tt, TokenType.fromToken token = some tt → tt ≠ .deviceAccessToken →
      validateDeviceToken records verifyHash now token clientIp =
        .error (.unauthorized "令牌类型不正确")) ∧
    (TokenType.fromToken token = some .deviceAccessToken →
      token.length < "zn_dat_".length + 12 →
      validateDeviceToken records verifyHash now token clientIp =
        .error (.validationError "令牌过短")) ∧
    (∀ key, TokenType.fromToken token = some .deviceAccessToken →
      extractSearchKey token = .ok key →
      findValidByLookupKey records now key = none →
      validateDeviceToken records verifyHash now token clientIp =
        .error (.unauthorized "令牌无效或已过期")) ∧
    (∀ key t, TokenType.fromToken token = some .deviceAccessToken →
      extractSearchKey token = .ok key →
      findValidByLookupKey records now key = some t →
      verifyHash token t.tokenHash = false →
      validateDeviceToken records verifyHash now token clientIp =
        .error (.unauthorized "令牌验证失败")) ∧
    (∀ key t ip, TokenType.fromToken token = some .deviceAccessToken →
      extractSearchKey token = .ok key →
      findValidByLookupKey records now key = some t →
      verifyHash token t.tokenHash = true →
      clientIp = some ip → t.isIpAllowed ip = false →
      validateDeviceToken records verifyHash now token clientIp =
        .error (.forbidden "IP 地址不在白名单中")) ∧
    (∀ e, validateDeviceToken records verifyHash now token clientIp = .error e →
      (∃ m, e = AppError.unauthorized m) ∨ (∃ m, e = AppError.forbidden m) ∨
      ((∃ m, e = AppError.validationError m) ∧
        TokenType.fromToken token = some .deviceAccessToken ∧
        token.length < "zn_dat_".length + 12)) := by
  refine ⟨?_, ?_, ?_, ?_, ?_, ?_, ?_⟩
  · intro h
    simp [validateDeviceToken, h]
  · intro tt h hne
    cases tt <;> simp_all [validateDeviceToken]
  · intro h hlen
    simp [validateDeviceToken, h, extractSearchKey, TokenType.prefixText,
      TokenType.displayLen, hlen]
  · intro key h hkey hfind
    simp [validateDeviceToken, h, hkey, hfind]
  · intro key t h hkey hfind hverify
    simp [validateDeviceToken, h, hkey, hfind, hverify]
  · intro key t ip h hkey hfind hverify hip hallow
    simp [validateDeviceToken, h, hkey, hfind, hverify, hip, hallow]
  · intro e he
    unfold validateDeviceToken at he
    cases hft : TokenType.fromToken token with
    | none =>
      simp only [hft, Except.error.injEq] at he
      exact Or.inl ⟨_, he.symm⟩
    | some tt =>
      simp only [hft] at he
      cases tt with
      | deviceApiKeyLive =>
        simp only [reduceCtorEq, ne_eq, not_false_iff, if_true,
          Except.error.injEq] at he
        exact Or.inl ⟨_, he.symm⟩
      | deviceApiKeyTest =>
        simp only [reduceCtorEq, ne_eq, not_false_iff, if_true,
          Except.error.injEq] at he
        exact Or.inl ⟨_, he.symm⟩
      | deviceAccessToken =>
        simp only [ne_eq, not_true_eq_false, if_false] at he
        cases hkey : extractSearchKey token with
        | error err =>
          have hdat : err = AppError.validationError "令牌过短" ∧
              token.length < "zn_dat_".length + 12 := by
            unfold extractSearchKey at hkey
            simp only [hft, TokenType.prefixText, TokenType.displayLen] at hkey
            by_cases hlen : token.length < "zn_dat_".length + 12
            · rw [if_pos hlen] at hkey
              simp only [Except.error.injEq] at hkey
              exact ⟨hkey.symm, hlen⟩
            · rw [if_neg hlen] at hkey
              exact absurd hkey (by simp)
          simp only [hkey, Except.error.injEq] at he
          refine Or.inr (Or.inr ⟨⟨"令牌过短", ?_⟩, rfl, hdat.2⟩)
          rw [← he, hdat.1]
        | ok key =>
          simp only [hkey] at he
          cases hfind : findValidByLookupKey records now key with
          | none =>
            simp only [hfind, Except.error.injEq] at he
            exact Or.inl ⟨_, he.symm⟩
          | some t =>
            simp only [hfind] at he
            cases hver : verifyHash token t.tokenHash with
            | false =>
              simp only [hver, Bool.not_false, if_true, Except.error.injEq] at he
              exact Or.inl ⟨_, he.symm⟩
            | true =>
              simp only [hver, Bool.not_true, Bool.false_eq_true, if_false] at he
              cases hip : clientIp with
              | none => simp [hip] at he
              | some ip =>
                simp only [hip] at he
                cases hallow : t.isIpAllowed ip with
                | false =>
                  simp only [hallow, Bool.not_false, if_true,
                    Except.error.injEq] at he
                  exact Or.inr (Or.inl ⟨_, he.symm⟩)
                | true => simp [hallow] at he

/-- C3 witness: an unrecognized token is rejected with `Unauthorized`, one of
the error classes of the amended trichotomy. -/
theorem C3_validate_error_classes_witness :
    validateDeviceToken [] (fun _ _ => false) 0 "bogus" none =
      .error (.unauthorized "无效的令牌格式") :=
  (C3_validate_error_classes [] (fun _ _ => false) 0 "bogus" none).1 rfl

/-- An event that is not a successful auth completion leaves both bound
identities unchanged. -/
theorem step_ids_unchanged (s : WsSession) (e : WsEvent)
    (h : isAuthSuccess e = false) :
    (s.step e).deviceId = s.deviceId ∧ (s.step e).userId = s.userId := by
  cases e with
  | authCompleted r =>
    cases r <;> simp_all [isAuthSuccess, WsSession.step, WsSession.applyAuthResult]
  | subscribeCompleted accessible =>
    by_cases hc : s.subscribedDevices.card + accessible.length > maxSubscribedDevices
    · simp [WsSession.step, WsSession.applySubscribeResult, hc]
    · simp [WsSession.step, WsSession.applySubscribeResult, hc]
  | unsubscribeMsg ids =>
    by_cases hc : ids.isEmpty
    · simp [WsSession.step, WsSession.handleUnsubscribe, hc]
    · simp [WsSession.step, WsSession.handleUnsubscribe, hc]
  | pingMsg => exact ⟨rfl, rfl⟩
  | closeMsg => exact ⟨rfl, rfl⟩

/-- A run without any successful auth completion never changes the bound
identities. -/
theorem run_ids_unchanged_of_no_auth (es : List WsEvent) (s : WsSession)
    (h : authSuccessCount es = 0) :
    (s.run es).deviceId = s.deviceId ∧ (s.run es).userId = s.userId := by
  induction es generalizing s with
  | nil => exact ⟨rfl, rfl⟩
  | cons e es ih =>
    have he : isAuthSuccess e = false := by
      cases hcase : isAuthSuccess e with
      | false => rfl
      | true => simp [authSuccessCount, List.countP_cons, hcase] at h
    have h' : authSuccessCount es = 0 := by
      simpa [authSuccessCount, List.countP_cons, he] using h
    have hstep := step_ids_unchanged s e he
    have htail := ih (s.step e) h'
    exact ⟨htail.1.trans hstep.1, htail.2.trans hstep.2⟩

/-- C6 counterexample: the auth-completion callback performs no state check,
so a successful device authentication followed by a successful user
authentication on the same connection leaves *both* the device id and the
user id bound. -/
theorem C6_double_auth_counterexample :
    (WsSession.init.run
        [.authCompleted (.deviceAuth 1), .authCompleted (.userAuth 2 none)]).deviceId =
      some 1 ∧
    (WsSession.init.run
        [.authCompleted (.deviceAuth 1), .authCompleted (.userAuth 2 none)]).userId =
      some 2 :=
  ⟨rfl, rfl⟩

/-- C6 (amended): each successful authentication completion binds exactly one
of the two identities, so along every event sequence containing at most one
successful auth completion the session holds at most one of the device id and
the user id; only a second successful authentication of the other kind (the
handler never checks the state) can bind both. -/
theorem C6_auth_binds_at_most_one (es : List WsEvent)
    (h : authSuccessCount es ≤ 1) :
    (WsSession.init.run es).deviceId = none ∨
    (WsSession.init.run es).userId = none := by
  suffices H : ∀ (es : List WsEvent) (s : WsSession), authSuccessCount es ≤ 1 →
      s.deviceId = none → s.userId = none →
      (s.run es).deviceId = none ∨ (s.run es).userId = none from
    H es WsSession.init h rfl rfl
  intro es
  induction es with
  | nil =>
    intro s h hd hu
    exact Or.inl hd
  | cons e es ih =>
    intro s h hd hu
    cases he : isAuthSuccess e with
    | false =>
      have h' : authSuccessCount es ≤ 1 := by
        simpa [authSuccessCount, List.countP_cons, he] using h
      exact ih (s.step e) h' ((step_ids_unchanged s e he).1.trans hd)
        ((step_ids_unchanged s e he).2.trans hu)
    | true =>
      have h0 : authSuccessCount es = 0 := by
        have hc := h
        simp only [authSuccessCount, List.countP_cons, he, if_true] at hc
        unfold authSuccessCount
        omega
      cases e with
      | authCompleted r =>
        cases r with
        | deviceAuth d =>
          refine Or.inr ?_
          have hids := run_ids_unchanged_of_no_auth es
            (s.step (.authCompleted (.deviceAuth d))) h0
          calc (WsSession.run s (.authCompleted (.deviceAuth d) :: es)).userId
              = (s.step (.authCompleted (.deviceAuth d))).userId := hids.2
            _ = s.userId := rfl
            _ = none := hu
        | userAuth u ro =>
          refine Or.inl ?_
          have hids := run_ids_unchanged_of_no_auth es
            (s.step (.authCompleted (.userAuth u ro))) h0
          calc (WsSession.run s (.authCompleted (.userAuth u ro) :: es)).deviceId
              = (s.step (.authCompleted (.userAuth u ro))).deviceId := hids.1
            _ = s.deviceId := rfl
            _ = none := hd
        | failed msg => simp [isAuthSuccess] at he
      | subscribeCompleted accessible => simp [isAuthSuccess] at he
      | unsubscribeMsg ids => simp [isAuthSuccess] at he
      | pingMsg => simp [isAuthSuccess] at he
      | closeMsg => simp [isAuthSuccess] at he

/-- C6 witness: a single successful device authentication leaves the user id
unbound. -/
theorem C6_auth_binds_at_most_one_witness :
    (WsSession.init.run [.authCompleted (.deviceAuth 1), .pingMsg]).deviceId = none ∨
    (WsSession.init.run [.authCompleted (.deviceAuth 1), .pingMsg]).userId = none :=
  C6_auth_binds_at_most_one [.authCompleted (.deviceAuth 1), .pingMsg] (by decide)

set_option maxRecDepth 40000 in
/-- C7 counterexample: a user connection already subscribed to 51 devices
re-requests those same 51 ids (all accessible).  Adding them would leave the
subscription set at 51 ≤ 100, yet the request is rejected in full, because
the cap check counts the accessible ids without regard to ids already
subscribed. -/
theorem C7_duplicate_resubscribe_rejected :
    c7Session.handleSubscribe (fun _ => true) (List.range 51) =
      (c7Session, .subscribeResult false []
        (some "订阅设备数量超过限制 (最大 100)")) ∧
    (c7Session.subscribedDevices ∪ (List.range 51).toFinset).card ≤
      maxSubscribedDevices := by
  constructor <;> decide

/-- C7 (amended): on a user-authenticated connection, ids the user cannot
access are silently dropped (the result lists exactly the accessible ids and
the request does not fail on their account); the request is rejected in full,
with the subscription set unchanged, exactly when the current subscription
count plus the number of accessible requested ids — counting duplicates and
already-subscribed ids — exceeds the cap of 100; otherwise all accessible ids
are added. -/
theorem C7_subscribe_cap (s : WsSession) (canAccess : Uuid → Bool)
    (deviceIds : List Uuid) (u : Uuid)
    (hstate : s.state = .authenticated) (huser : s.userId = some u) :
    (maxSubscribedDevices <
        s.subscribedDevices.card + (deviceIds.filter canAccess).length →
      s.handleSubscribe canAccess deviceIds =
        (s, .subscribeResult false [] (some "订阅设备数量超过限制 (最大 100)"))) ∧
    (s.subscribedDevices.card + (deviceIds.filter canAccess).length ≤
        maxSubscribedDevices →
      s.handleSubscribe canAccess deviceIds =
        ({ s with subscribedDevices :=
            s.subscribedDevices ∪ (deviceIds.filter canAccess).toFinset },
         .subscribeResult true (deviceIds.filter canAccess) none)) := by
  constructor <;> intro h
  · simp [WsSession.handleSubscribe, accessibleDevices, WsSession.applySubscribeResult,
      hstate, huser, h]
  · have hnot : ¬ (s.subscribedDevices.card + (deviceIds.filter canAccess).length >
        maxSubscribedDevices) := by omega
    simp [WsSession.handleSubscribe, accessibleDevices, WsSession.applySubscribeResult,
      hstate, huser, hnot, foldl_insert_eq_union]

/-- C7 witness: from an empty subscription set, requesting [1, 2, 3, 4] when
only even ids are accessible subscribes exactly 2 and 4 and reports them. -/
theorem C7_subscribe_cap_witness :
    c7WitSession.handleSubscribe (fun d => decide (d % 2 = 0)) [1, 2, 3, 4] =
      ({ c7WitSession with subscribedDevices :=
          c7WitSession.subscribedDevices ∪
            ([1, 2, 3, 4].filter (fun d => decide (d % 2 = 0))).toFinset },
       .subscribeResult true ([1, 2, 3, 4].filter (fun d => decide (d % 2 = 0))) none) :=
  (C7_subscribe_cap c7WitSession (fun d => decide (d % 2 = 0)) [1, 2, 3, 4] 7
    rfl rfl).2 (by decide)

end Zinnia
